import Mathlib

/-!
Shallow embedding of the cookie-refresh / page-fetch component of the
biluppgifter client (src/biluppgifter.py): the `CookieManager` class
(`get_cookies`, `force_refresh`, `_refresh_cookies`) and the
`BiluppgifterClient._fetch_page` retry loop.

Python dictionaries of cookies are modelled as insertion-ordered
association lists with key-unique update semantics; time is modelled as
natural-number seconds; the network and the browser-automation step are
modelled as oracles supplying, per attempt, the HTTP response and the
outcome of a refresh (success with a list of browser cookies, or a
failure raised before or after the timestamp update at line 101).
-/

namespace Biluppgifter

/-- A Python dict of string keys and string values: insertion-ordered
association list whose keys are unique; `set` overwrites in place. -/
structure Dict where
  entries : List (String × String)
deriving DecidableEq, Repr

/-- `d[k] = v`: overwrite the existing entry in place (Python keeps the
original insertion position), else append. -/
def Dict.set (d : Dict) (k v : String) : Dict :=
  if d.entries.any (fun p => p.1 = k) then
    ⟨d.entries.map (fun p => if p.1 = k then (k, v) else p)⟩
  else
    ⟨d.entries ++ [(k, v)]⟩

/-- `d.get(k)`: value of the first entry with key `k`. -/
def Dict.lookup (d : Dict) (k : String) : Option String :=
  (d.entries.find? (fun p => p.1 = k)).map Prod.snd

/-- Python truthiness of a dict: `not self.cookies` is true iff empty. -/
def Dict.isEmpty (d : Dict) : Bool :=
  d.entries.isEmpty

/-- The three environment-variable fallback tokens read in the `except`
branch of `_refresh_cookies` (`BILUPPGIFTER_SESSION`,
`BILUPPGIFTER_CF_CLEARANCE`, `BILUPPGIFTER_ANTIFORGERY`); `os.getenv`
with default `''` always yields a string, possibly empty. -/
structure Env where
  session : String
  cf_clearance : String
  antiforgery : String
deriving DecidableEq, Repr

/-- The allow-list of cookie names extracted from the browser session
(line 97 of src/biluppgifter.py). -/
def allowList : List String :=
  ["session", "cf_clearance", ".AspNetCore.Antiforgery.KXUQR4SkAeM"]

/-- Mutable state of `CookieManager`: the stored cookie dict and the
`last_refresh` timestamp (seconds; `0` at construction). The
`threading.Lock` is modelled by treating each locked section as atomic. -/
structure CMState where
  cookies : Dict
  lastRefresh : Nat
deriving DecidableEq, Repr

/-- `min_refresh_interval = 60` (line 26). -/
def minRefreshInterval : Nat := 60

/-- Outcome of one browser-automation session inside `_refresh_cookies`:
the try block either completes, with the Playwright context having
produced a list of cookies (`context.cookies()`, name/value pairs in
iteration order), or raises at some point. What the `except` handler
observes depends on where the exception was raised: `earlyFailure` is an
exception before the timestamp update at line 101 (browser launch,
navigation, challenge wait, cookie extraction), after which
`last_refresh` still holds its old value; `lateFailure` is an exception
after line 101 but still inside the try block (`browser.close()` at line
102, the print at line 104, or the `sync_playwright` context exit), by
which point `last_refresh` has already been set to the current time. -/
inductive RefreshOutcome where
  | success (browserCookies : List (String × String))
  | earlyFailure
  | lateFailure
deriving DecidableEq, Repr

/-- One iteration of the cookie-extraction loop (lines 94-98): store the
browser cookie only when its name is in the allow-list. -/
def extractStep (d : Dict) (p : String × String) : Dict :=
  if p.1 ∈ allowList then d.set p.1 p.2 else d

/-- The success path of `_refresh_cookies` (lines 89-99): start from
`{'theme': 'dark'}` and copy in every browser cookie whose name is in the
allow-list. -/
def extractCookies (browserCookies : List (String × String)) : Dict :=
  browserCookies.foldl extractStep ⟨[("theme", "dark")]⟩

/-- The fallback dict assigned in the `except` branch (lines 109-114). -/
def fallbackCookies (env : Env) : Dict :=
  ⟨[("theme", "dark"),
    ("session", env.session),
    ("cf_clearance", env.cf_clearance),
    (".AspNetCore.Antiforgery.KXUQR4SkAeM", env.antiforgery)]⟩

/-- `_refresh_cookies` (lines 44-114): on success the cookie dict is
replaced by the extracted set and `last_refresh` is set to the current
time (line 101). Any exception inside the try block is swallowed by the
handler at line 106, which replaces the dict with the environment
fallback; an exception raised before line 101 leaves `last_refresh`
unchanged, while one raised after line 101 (`browser.close()`, the
print, or the context exit) reaches the handler with `last_refresh`
already set to the current time. -/
def refreshCookies (env : Env) (o : RefreshOutcome) (now : Nat) (s : CMState) :
    CMState :=
  match o with
  | .success bc => { cookies := extractCookies bc, lastRefresh := now }
  | .earlyFailure =>
    { cookies := fallbackCookies env, lastRefresh := s.lastRefresh }
  | .lateFailure => { cookies := fallbackCookies env, lastRefresh := now }

/-- `force_refresh` (lines 35-42): inside the lock, skip (no-op) when the
cooldown has not elapsed, else run `_refresh_cookies`. The boolean
reports whether a refresh was executed. -/
def forceRefresh (env : Env) (o : RefreshOutcome) (now : Nat) (s : CMState) :
    CMState × Bool :=
  if now - s.lastRefresh < minRefreshInterval then
    (s, false)
  else
    (refreshCookies env o now s, true)

/-- `get_cookies` (lines 28-33): inside the lock, refresh when the dict is
empty, then return (a copy of) the dict. The returned `Dict` is the
value of the copy; reference-level copy semantics are modelled separately
by the heap embedding below. -/
def getCookies (env : Env) (o : RefreshOutcome) (now : Nat) (s : CMState) :
    Dict × CMState :=
  if s.cookies.isEmpty then
    let s1 := refreshCookies env o now s
    (s1.cookies, s1)
  else
    (s.cookies, s)

/-- One caller's critical section of `get_cookies`, tracking whether it
ran `_refresh_cookies`. The lock serializes critical sections, so a
concurrent execution is a sequence of these in some arrival order. -/
def getCookiesCS (env : Env) (inp : RefreshOutcome × Nat) (s : CMState) :
    CMState × Bool :=
  if s.cookies.isEmpty then
    (refreshCookies env inp.1 inp.2 s, true)
  else
    (s, false)

/-- Serialized execution of the `get_cookies` critical sections of a list
of concurrent callers (in the order the lock admits them), counting how
many refreshes ran. -/
def runCallers (env : Env) (inputs : List (RefreshOutcome × Nat)) (s : CMState) :
    CMState × Nat :=
  match inputs with
  | [] => (s, 0)
  | inp :: rest =>
    let r := getCookiesCS env inp s
    let rr := runCallers env rest r.1
    (rr.1, (if r.2 then 1 else 0) + rr.2)

/-- `_max_retries = 2` (line 133). -/
def maxRetries : Nat := 2

/-- What the network returns for one `requests.get` call: an HTTP status
with a body, or `curl_cffi`'s `Timeout` exception. -/
inductive Response where
  | status (code : Nat) (body : String)
  | timeout
deriving DecidableEq, Repr

/-- Classified outcome of `_fetch_page`: the body on HTTP 200; the
`PermissionError` raised at line 156 after the retry budget is exhausted
(`Forbidden`); the `ConnectionError` raised at line 164 carrying the
status code (`UpstreamError`); the `ConnectionError` raised at line 169
on a network timeout (`Timeout`). -/
inductive FetchResult where
  | ok (body : String)
  | forbidden
  | upstreamError (code : Nat)
  | timeout
deriving DecidableEq, Repr

/-- Oracle input for one attempt of `_fetch_page`: the refresh outcome and
current time seen by the `get_cookies` call at line 137, the network
response at line 140, and the refresh outcome and current time seen by
the `force_refresh` call at line 152 (used only on a retried 403). -/
structure Attempt where
  getOutcome : RefreshOutcome
  getNow : Nat
  response : Response
  frOutcome : RefreshOutcome
  frNow : Nat
deriving Repr

/-- Result of a `_fetch_page` call: the classified outcome, the final
`CookieManager` state, the final `_retry_count`, the number of HTTP
requests issued, and the number of `force_refresh` calls made. -/
structure FetchOutcome where
  result : FetchResult
  cm : CMState
  retryCount : Nat
  requests : Nat
  forceRefreshCalls : Nat
deriving DecidableEq, Repr

/-- `_fetch_page` (lines 135-169), with `att i` the oracle input of the
i-th attempt, `cm` the shared `CookieManager` state and `rc` the client's
`_retry_count` on entry. On 403 with `rc < maxRetries` the count is
incremented, `force_refresh` is called and the call recurses (line 153);
on 403 with the budget exhausted the count resets and `PermissionError`
is raised; otherwise the count resets, a non-200 status raises
`ConnectionError`, and a 200 returns the body. A `Timeout` from
`requests.get` maps to the handler at line 168; exceptions raised by the
recursive call are not `Timeout` and propagate unchanged. -/
def fetchPage (env : Env) (att : Nat → Attempt) (i : Nat) (cm : CMState)
    (rc : Nat) : FetchOutcome :=
  let a := att i
  let g := getCookies env a.getOutcome a.getNow cm
  let cm1 := g.2
  match a.response with
  | .timeout =>
    { result := .timeout, cm := cm1, retryCount := rc, requests := 1,
      forceRefreshCalls := 0 }
  | .status code body =>
    if code = 403 then
      if h : rc < maxRetries then
        let fr := forceRefresh env a.frOutcome a.frNow cm1
        let rest := fetchPage env att (i + 1) fr.1 (rc + 1)
        { result := rest.result, cm := rest.cm, retryCount := rest.retryCount,
          requests := rest.requests + 1,
          forceRefreshCalls := rest.forceRefreshCalls + 1 }
      else
        { result := .forbidden, cm := cm1, retryCount := 0, requests := 1,
          forceRefreshCalls := 0 }
    else if code ≠ 200 then
      { result := .upstreamError code, cm := cm1, retryCount := 0,
        requests := 1, forceRefreshCalls := 0 }
    else
      { result := .ok body, cm := cm1, retryCount := 0, requests := 1,
        forceRefreshCalls := 0 }
termination_by maxRetries - rc
decreasing_by omega

/-! Heap model for the aliasing behaviour of `get_cookies`: dicts live in
heap cells addressed by natural numbers; `.copy()` allocates a fresh
cell holding the same entries; a caller mutating its returned dict
writes through its own reference. -/

/-- A heap of dict cells; the address of a cell is its index. -/
structure Heap where
  cells : List Dict
deriving Repr

/-- Dereference; out-of-range reads give the empty dict (never exercised
under the validity hypotheses used below). -/
def Heap.read (h : Heap) (r : Nat) : Dict :=
  h.cells[r]?.getD ⟨[]⟩

/-- Allocate a fresh cell holding `d`, returning the new heap and the
fresh address. -/
def Heap.alloc (h : Heap) (d : Dict) : Heap × Nat :=
  (⟨h.cells ++ [d]⟩, h.cells.length)

/-- Overwrite the cell at `r`. -/
def Heap.write (h : Heap) (r : Nat) (d : Dict) : Heap :=
  ⟨h.cells.set r d⟩

/-- The `return self.cookies.copy()` line of `get_cookies` (line 33), on
the path where the dict is already populated: allocate a fresh cell with
the same entries as the manager's cell `mref` and hand its address to the
caller. -/
def getCookiesCopy (h : Heap) (mref : Nat) : Heap × Nat :=
  h.alloc (h.read mref)

/-- A caller mutating the dict it was handed: `d[k] = v` through
reference `r`. -/
def dictSetAt (h : Heap) (r : Nat) (k v : String) : Heap :=
  h.write r ((h.read r).set k v)

/-- A sample environment configuration, for concrete evaluations. -/
def sampleEnv : Env := ⟨"s", "c", "a"⟩

/-- A network trace in which every request is answered 403, for concrete
evaluations. -/
def allForbiddenTrace : Nat → Attempt :=
  fun _ => ⟨.earlyFailure, 0, .status 403 "deny", .earlyFailure, 100⟩

/-- A freshly constructed `CookieManager` state: empty dict,
`last_refresh = 0`. -/
def freshCM : CMState := ⟨⟨[]⟩, 0⟩

end Biluppgifter

namespace Biluppgifter

/-! Helper lemmas about `Dict.set` and `Dict.lookup`. -/

/-- Overwriting key `k` in a list that contains it makes `k` findable with
the new value. -/
theorem find_map_overwrite (k v : String) :
    ∀ l : List (String × String),
      l.any (fun p => p.1 = k) = true →
      (l.map (fun p => if p.1 = k then (k, v) else p)).find?
          (fun p => p.1 = k) = some (k, v) := by
  intro l
  induction l with
  | nil => intro h; simp at h
  | cons a t ih =>
    intro h
    by_cases ha : a.1 = k
    · simp [List.find?, ha]
    · simp only [List.map_cons, if_neg ha]
      rw [List.find?_cons_of_neg _ (by simp [ha])]
      apply ih
      simpa [ha] using h

/-- After `d[k] = v`, looking up `k` yields `v`. -/
theorem Dict.lookup_set_self (d : Dict) (k v : String) :
    (d.set k v).lookup k = some v := by
  unfold Dict.set Dict.lookup
  by_cases h : d.entries.any (fun p => p.1 = k) = true
  · rw [if_pos h]
    rw [find_map_overwrite k v d.entries h]
    rfl
  · rw [if_neg h]
    have hnone : d.entries.find? (fun p => p.1 = k) = none := by
      rw [List.find?_eq_none]
      intro x hx hcon
      exact h (List.any_eq_true.mpr ⟨x, hx, hcon⟩)
    rw [List.find?_append, hnone]
    simp [List.find?]

/-- Overwriting key `k` leaves searches for a different key `k2`
unchanged. -/
theorem find_map_overwrite_other (k v k2 : String) (hne : k2 ≠ k) :
    ∀ l : List (String × String),
      (l.map (fun p => if p.1 = k then (k, v) else p)).find?
          (fun p => p.1 = k2) = l.find? (fun p => p.1 = k2) := by
  intro l
  induction l with
  | nil => rfl
  | cons a t ih =>
    by_cases ha : a.1 = k
    · simp only [List.map_cons, if_pos ha]
      rw [List.find?_cons_of_neg _ (by simp [Ne.symm hne]),
          List.find?_cons_of_neg _ (by simp [ha, Ne.symm hne]), ih]
    · simp only [List.map_cons, if_neg ha]
      by_cases ha2 : a.1 = k2
      · rw [List.find?_cons_of_pos _ (by simp [ha2]),
            List.find?_cons_of_pos _ (by simp [ha2])]
      · rw [List.find?_cons_of_neg _ (by simp [ha2]),
            List.find?_cons_of_neg _ (by simp [ha2]), ih]

/-- After `d[k] = v`, looking up any other key is unchanged. -/
theorem Dict.lookup_set_other (d : Dict) (k v k2 : String) (hne : k2 ≠ k) :
    (d.set k v).lookup k2 = d.lookup k2 := by
  unfold Dict.set Dict.lookup
  by_cases h : d.entries.any (fun p => p.1 = k) = true
  · rw [if_pos h]
    rw [find_map_overwrite_other k v k2 hne d.entries]
  · rw [if_neg h]
    rw [List.find?_append]
    have hone : ([(k, v)].find? (fun p => p.1 = k2)) = none := by
      simp [List.find?, Ne.symm hne]
    rw [hone, Option.or_none]

/-- `d[k] = v` never produces an empty dict. -/
theorem Dict.set_entries_ne_nil (d : Dict) (k v : String) :
    (d.set k v).entries ≠ [] := by
  unfold Dict.set
  by_cases h : d.entries.any (fun p => p.1 = k) = true
  · rw [if_pos h]
    intro hcon
    have hnil := List.map_eq_nil_iff.mp hcon
    rw [hnil] at h
    simp at h
  · rw [if_neg h]
    simp

/-! Helper lemmas about the cookie-extraction loop of
`_refresh_cookies`. -/

/-- The extraction loop never touches a key outside the allow-list. -/
theorem foldl_extract_not_allowed (k : String) (hk : k ∉ allowList) :
    ∀ (bc : List (String × String)) (d : Dict),
      (bc.foldl extractStep d).lookup k = d.lookup k := by
  intro bc
  induction bc with
  | nil => intro d; rfl
  | cons p rest ih =>
    intro d
    rw [List.foldl_cons, ih]
    unfold extractStep
    by_cases hp : p.1 ∈ allowList
    · rw [if_pos hp]
      exact Dict.lookup_set_other d p.1 p.2 k (fun h => hk (h ▸ hp))
    · rw [if_neg hp]

/-- The extraction loop never touches a key that no browser cookie
carries. -/
theorem foldl_extract_not_mem (k : String) :
    ∀ (bc : List (String × String)) (d : Dict), k ∉ bc.map Prod.fst →
      (bc.foldl extractStep d).lookup k = d.lookup k := by
  intro bc
  induction bc with
  | nil => intro d _; rfl
  | cons p rest ih =>
    intro d hk
    have hp1 : p.1 ≠ k := by
      intro h
      exact hk (by simp [h])
    have hrest : k ∉ rest.map Prod.fst := by
      intro h
      exact hk (by simp [h])
    rw [List.foldl_cons, ih _ hrest]
    unfold extractStep
    by_cases hp : p.1 ∈ allowList
    · rw [if_pos hp]
      exact Dict.lookup_set_other d p.1 p.2 k (fun h => hp1 h.symm)
    · rw [if_neg hp]

/-- An allow-listed key carried by some browser cookie ends up in the
extracted dict, bound to a value that some browser cookie carried. -/
theorem foldl_extract_mem (k : String) (hk : k ∈ allowList) :
    ∀ (bc : List (String × String)) (d : Dict), k ∈ bc.map Prod.fst →
      ∃ v, (k, v) ∈ bc ∧ (bc.foldl extractStep d).lookup k = some v := by
  intro bc
  induction bc with
  | nil => intro d h; simp at h
  | cons p rest ih =>
    intro d hmem
    by_cases hrest : k ∈ rest.map Prod.fst
    · rcases ih (extractStep d p) hrest with ⟨v, hv, hlook⟩
      exact ⟨v, List.mem_cons_of_mem _ hv, by rw [List.foldl_cons]; exact hlook⟩
    · have hp1 : p.1 = k := by
        rcases List.mem_map.mp hmem with ⟨q, hq, hq1⟩
        rcases List.mem_cons.mp hq with hq | hq
        · rw [hq] at hq1; exact hq1
        · exact absurd (List.mem_map.mpr ⟨q, hq, hq1⟩) hrest
      refine ⟨p.2, ?_, ?_⟩
      · have hpeq : p = (k, p.2) := Prod.ext_iff.mpr ⟨hp1, rfl⟩
        rw [← hpeq]
        exact List.mem_cons_self _ _
      · rw [List.foldl_cons, foldl_extract_not_mem k rest _ hrest]
        unfold extractStep
        rw [if_pos (hp1 ▸ hk), hp1]
        exact Dict.lookup_set_self d k p.2

/-- The cookie name `theme` is not in the extraction allow-list. -/
theorem theme_not_allowed : ("theme" : String) ∉ allowList := by decide

/-- The only key present in the initial dict `{'theme': 'dark'}` is
`theme`. -/
theorem base_lookup_isSome (k : String)
    (h : ((Dict.mk [("theme", "dark")]).lookup k).isSome = true) :
    k = "theme" := by
  unfold Dict.lookup at h
  by_cases hk : "theme" = k
  · exact hk.symm
  · rw [List.find?_cons_of_neg _ (by simp [hk])] at h
    simp [List.find?] at h

/-- The extraction loop preserves non-emptiness of the dict. -/
theorem foldl_extract_ne_nil :
    ∀ (bc : List (String × String)) (d : Dict), d.entries ≠ [] →
      (bc.foldl extractStep d).entries ≠ [] := by
  intro bc
  induction bc with
  | nil => intro d h; exact h
  | cons p rest ih =>
    intro d h
    rw [List.foldl_cons]
    apply ih
    unfold extractStep
    by_cases hp : p.1 ∈ allowList
    · rw [if_pos hp]
      exact Dict.set_entries_ne_nil d p.1 p.2
    · rw [if_neg hp]
      exact h

/-- After `_refresh_cookies`, successful or not, the stored dict is
non-empty: both the extracted set and the fallback set contain at least
the `theme` entry. -/
theorem refresh_cookies_nonempty (env : Env) (o : RefreshOutcome) (now : Nat)
    (s : CMState) : (refreshCookies env o now s).cookies.isEmpty = false := by
  cases o with
  | success bc =>
    have h := foldl_extract_ne_nil bc ⟨[("theme", "dark")]⟩ (by simp)
    unfold refreshCookies extractCookies Dict.isEmpty
    simpa [List.isEmpty_iff] using h
  | earlyFailure => rfl
  | lateFailure => rfl

/-- A caller entering `get_cookies` with a non-empty dict neither
refreshes nor changes the state, and the same holds for every later
caller. -/
theorem runCallers_no_refresh (env : Env) :
    ∀ (inputs : List (RefreshOutcome × Nat)) (s : CMState),
      s.cookies.isEmpty = false → runCallers env inputs s = (s, 0) := by
  intro inputs
  induction inputs with
  | nil => intro s _; rfl
  | cons inp rest ih =>
    intro s h
    unfold runCallers getCookiesCS
    rw [if_neg (by simp [h])]
    simp [ih s h]

/-- Any `_fetch_page` call issues at most `1 + (maxRetries - rc)` HTTP
requests, whatever the network returns. -/
theorem fetchPage_requests_le (env : Env) (att : Nat → Attempt) :
    ∀ n i cm rc, maxRetries - rc ≤ n →
      (fetchPage env att i cm rc).requests ≤ 1 + (maxRetries - rc) := by
  intro n
  induction n with
  | zero =>
    intro i cm rc h
    have hrc : ¬ rc < maxRetries := by omega
    rw [fetchPage]
    cases hresp : (att i).response with
    | timeout => simp [hresp]
    | status code body =>
      by_cases hc : code = 403
      · simp [hresp, hc, hrc]
      · by_cases h2 : code = 200 <;> simp [hresp, hc, h2]
  | succ n ih =>
    intro i cm rc h
    rw [fetchPage]
    cases hresp : (att i).response with
    | timeout => simp [hresp]
    | status code body =>
      by_cases hc : code = 403
      · by_cases hrc : rc < maxRetries
        · have hrec := ih (i+1) (forceRefresh env (att i).frOutcome (att i).frNow
            (getCookies env (att i).getOutcome (att i).getNow cm).2).1 (rc+1)
            (by omega)
          simp [hresp, hc, hrc]
          omega
        · simp [hresp, hc, hrc]
      · by_cases h2 : code = 200 <;> simp [hresp, hc, h2]

end Biluppgifter

namespace Biluppgifter

/-- Claim C1 (counterexample): the claim as stated is false on the code.
With `_max_retries = 2`, a single fetch call whose requests are all
answered 403 issues three HTTP requests, not at most two. -/
theorem fetch_two_403s_claim_false :
    ¬ ((fetchPage sampleEnv allForbiddenTrace 0 freshCM 0).requests ≤ 2) := by
  simp [fetchPage, allForbiddenTrace, getCookies, maxRetries]

/-- Claim C1 (amended): the retry budget is 2 retries (`_max_retries = 2`),
not 1. A fetch call whose requests are answered 403 three times in a row
fails with `Forbidden` after exactly three HTTP requests and two
`force_refresh` calls, and no fourth request is attempted: every single
fetch call issues at most three HTTP requests. -/
theorem fetch_retry_budget_exhaustion (env : Env) (att : Nat → Attempt)
    (i : Nat) (cm : CMState) (b0 b1 b2 : String)
    (h0 : (att i).response = .status 403 b0)
    (h1 : (att (i+1)).response = .status 403 b1)
    (h2 : (att (i+2)).response = .status 403 b2) :
    (fetchPage env att i cm 0).result = .forbidden ∧
    (fetchPage env att i cm 0).requests = 3 ∧
    (fetchPage env att i cm 0).forceRefreshCalls = 2 ∧
    ∀ (att2 : Nat → Attempt) (j : Nat) (cm2 : CMState),
      (fetchPage env att2 j cm2 0).requests ≤ 3 := by
  have hall : ∀ (att2 : Nat → Attempt) (j : Nat) (cm2 : CMState),
      (fetchPage env att2 j cm2 0).requests ≤ 3 := by
    intro att2 j cm2
    have hb := fetchPage_requests_le env att2 maxRetries j cm2 0 (by omega)
    simpa [maxRetries] using hb
  refine ⟨?_, ?_, ?_, hall⟩ <;>
  · rw [fetchPage]
    simp only [h0]
    rw [fetchPage]
    simp only [h1]
    rw [fetchPage]
    simp only [h2]
    norm_num [maxRetries]

/-- Claim C1 (witness): the amended claim evaluated on the all-403 trace
from a fresh client and an empty cookie cache. -/
theorem fetch_retry_budget_exhaustion_witness :
    (fetchPage sampleEnv allForbiddenTrace 0 freshCM 0).result = .forbidden ∧
    (fetchPage sampleEnv allForbiddenTrace 0 freshCM 0).requests = 3 :=
  ⟨(fetch_retry_budget_exhaustion sampleEnv allForbiddenTrace 0 freshCM
      "deny" "deny" "deny" rfl rfl rfl).1,
   (fetch_retry_budget_exhaustion sampleEnv allForbiddenTrace 0 freshCM
      "deny" "deny" "deny" rfl rfl rfl).2.1⟩

/-- Claim C2: a `force_refresh` call made less than the cooldown
(`min_refresh_interval = 60` seconds) after the previous refresh is a
no-op: the stored state (cookie dict and timestamp) is unchanged and no
refresh is executed. -/
theorem force_refresh_cooldown_noop (env : Env) (o : RefreshOutcome)
    (now : Nat) (s : CMState)
    (h : now - s.lastRefresh < minRefreshInterval) :
    forceRefresh env o now s = (s, false) := by
  unfold forceRefresh
  rw [if_pos h]

/-- Claim C2 (witness): a refresh at `now = 30`, twenty seconds after a
refresh at `last_refresh = 10`, is skipped. -/
theorem force_refresh_cooldown_noop_witness :
    (30 : Nat) - (⟨⟨[("theme", "dark")]⟩, 10⟩ : CMState).lastRefresh
        < minRefreshInterval ∧
    forceRefresh ⟨"s", "c", "a"⟩ .earlyFailure 30 ⟨⟨[("theme", "dark")]⟩, 10⟩
      = (⟨⟨[("theme", "dark")]⟩, 10⟩, false) :=
  ⟨by decide,
   force_refresh_cooldown_noop ⟨"s", "c", "a"⟩ .earlyFailure 30
     ⟨⟨[("theme", "dark")]⟩, 10⟩ (by decide)⟩

/-- Claim C3: a fetch whose HTTP response status is outside {200, 403}
fails with `UpstreamError` carrying that status code, and that response
triggers zero `force_refresh` calls (hence zero credential refreshes; the
only refresh a fetch can otherwise run is the empty-cache population
inside `get_cookies`, which happens before the response exists). -/
theorem fetch_upstream_error_no_refresh (env : Env) (att : Nat → Attempt)
    (i : Nat) (cm : CMState) (rc : Nat) (c : Nat) (b : String)
    (hresp : (att i).response = .status c b) (h403 : c ≠ 403)
    (h200 : c ≠ 200) :
    (fetchPage env att i cm rc).result = .upstreamError c ∧
    (fetchPage env att i cm rc).forceRefreshCalls = 0 := by
  constructor <;> (rw [fetchPage]; simp [hresp, h403, h200])

/-- Claim C3 (witness): a 500 response yields `UpstreamError 500` and no
`force_refresh` call. -/
theorem fetch_upstream_error_no_refresh_witness :
    (fetchPage ⟨"s", "c", "a"⟩
        (fun _ => ⟨.earlyFailure, 0, .status 500 "boom", .earlyFailure, 9⟩)
        0 ⟨⟨[]⟩, 0⟩ 0).result = .upstreamError 500 ∧
    (fetchPage ⟨"s", "c", "a"⟩
        (fun _ => ⟨.earlyFailure, 0, .status 500 "boom", .earlyFailure, 9⟩)
        0 ⟨⟨[]⟩, 0⟩ 0).forceRefreshCalls = 0 :=
  fetch_upstream_error_no_refresh ⟨"s", "c", "a"⟩
    (fun _ => ⟨.earlyFailure, 0, .status 500 "boom", .earlyFailure, 9⟩) 0 ⟨⟨[]⟩, 0⟩ 0
    500 "boom" rfl (by decide) (by decide)

/-- Claim C4: every failure during `_refresh_cookies` — whether the
exception is raised before or after the timestamp update at line 101 —
is swallowed by the `except` handler and never propagates: in both
failure cases the stored dict is replaced with the fallback dict holding
the fixed theme value plus the three environment-supplied tokens
(possibly empty strings). -/
theorem refresh_failure_fallback (env : Env) (now : Nat) (s : CMState) :
    (refreshCookies env .earlyFailure now s).cookies = fallbackCookies env ∧
    (refreshCookies env .lateFailure now s).cookies = fallbackCookies env ∧
    (fallbackCookies env).lookup "theme" = some "dark" ∧
    (fallbackCookies env).lookup "session" = some env.session ∧
    (fallbackCookies env).lookup "cf_clearance" = some env.cf_clearance ∧
    (fallbackCookies env).lookup ".AspNetCore.Antiforgery.KXUQR4SkAeM"
      = some env.antiforgery := by
  refine ⟨rfl, rfl, rfl, ?_, ?_, ?_⟩ <;>
    simp [fallbackCookies, Dict.lookup, List.find?]

/-- Claim C5: a successful refresh replaces the dict wholesale: the result
is `extractCookies bc`, independent of the previous dict; it maps `theme`
to `dark`; every allow-listed browser cookie is present; and every key it
holds is either `theme` or an allow-listed name whose value was
re-extracted from the browser session. -/
theorem refresh_success_wholesale (env : Env) (bc : List (String × String))
    (now : Nat) (s : CMState) :
    (refreshCookies env (.success bc) now s).cookies = extractCookies bc ∧
    (extractCookies bc).lookup "theme" = some "dark" ∧
    (∀ k v, k ∈ allowList → (k, v) ∈ bc →
        ((extractCookies bc).lookup k).isSome = true) ∧
    (∀ k, ((extractCookies bc).lookup k).isSome = true →
        k = "theme" ∨ (k ∈ allowList ∧
          ∃ v, (k, v) ∈ bc ∧ (extractCookies bc).lookup k = some v)) := by
  refine ⟨rfl, ?_, ?_, ?_⟩
  · unfold extractCookies
    rw [foldl_extract_not_allowed "theme" theme_not_allowed bc _]
    rfl
  · intro k v hk hkv
    have hmem : k ∈ bc.map Prod.fst := List.mem_map.mpr ⟨(k, v), hkv, rfl⟩
    rcases foldl_extract_mem k hk bc ⟨[("theme", "dark")]⟩ hmem with
      ⟨w, _, hlook⟩
    unfold extractCookies
    rw [hlook]
    rfl
  · intro k hsome
    by_cases hk : k ∈ allowList
    · by_cases hmem : k ∈ bc.map Prod.fst
      · rcases foldl_extract_mem k hk bc ⟨[("theme", "dark")]⟩ hmem with
          ⟨w, hw, hlook⟩
        exact Or.inr ⟨hk, w, hw, hlook⟩
      · left
        apply base_lookup_isSome k
        unfold extractCookies at hsome
        rw [foldl_extract_not_mem k bc _ hmem] at hsome
        exact hsome
    · left
      apply base_lookup_isSome k
      unfold extractCookies at hsome
      rw [foldl_extract_not_allowed k hk bc _] at hsome
      exact hsome

/-- Claim C5 (witness): a browser session carrying a `session` cookie and
a non-allow-listed cookie yields a dict containing `session`. -/
theorem refresh_success_wholesale_witness :
    ((extractCookies [("session", "sv"), ("junk", "j")]).lookup
        "session").isSome = true :=
  (refresh_success_wholesale ⟨"s", "c", "a"⟩ [("session", "sv"), ("junk", "j")]
      7 ⟨⟨[("old", "x")]⟩, 0⟩).2.2.1 "session" "sv" (by decide) (by simp)

/-- Claim C6: a fetch whose HTTP response status is 200 returns the
response body unchanged and resets `_retry_count` to zero. -/
theorem fetch_200_returns_body (env : Env) (att : Nat → Attempt) (i : Nat)
    (cm : CMState) (rc : Nat) (b : String)
    (hresp : (att i).response = .status 200 b) :
    (fetchPage env att i cm rc).result = .ok b ∧
    (fetchPage env att i cm rc).retryCount = 0 := by
  constructor <;> (rw [fetchPage]; simp [hresp])

/-- Claim C6 (witness): a 200 response with body `body`, entered with
`_retry_count = 1`, returns the body and resets the counter. -/
theorem fetch_200_returns_body_witness :
    (fetchPage ⟨"s", "c", "a"⟩
        (fun _ => ⟨.earlyFailure, 0, .status 200 "body", .earlyFailure, 9⟩)
        0 ⟨⟨[]⟩, 0⟩ 1).result = .ok "body" ∧
    (fetchPage ⟨"s", "c", "a"⟩
        (fun _ => ⟨.earlyFailure, 0, .status 200 "body", .earlyFailure, 9⟩)
        0 ⟨⟨[]⟩, 0⟩ 1).retryCount = 0 :=
  fetch_200_returns_body ⟨"s", "c", "a"⟩
    (fun _ => ⟨.earlyFailure, 0, .status 200 "body", .earlyFailure, 9⟩) 0 ⟨⟨[]⟩, 0⟩ 1
    "body" rfl

/-- Claim C7: a fetch that encounters a network-level timeout fails with
the classified failure `Timeout`, a `FetchResult` distinct from the
`Forbidden`, `UpstreamError` and success outcomes. -/
theorem fetch_timeout_classified (env : Env) (att : Nat → Attempt) (i : Nat)
    (cm : CMState) (rc : Nat) (hresp : (att i).response = .timeout) :
    (fetchPage env att i cm rc).result = .timeout ∧
    FetchResult.timeout ≠ FetchResult.forbidden ∧
    (∀ c : Nat, FetchResult.timeout ≠ FetchResult.upstreamError c) ∧
    (∀ b : String, FetchResult.timeout ≠ FetchResult.ok b) := by
  refine ⟨?_, by simp, fun c => by simp, fun b => by simp⟩
  rw [fetchPage]
  simp [hresp]

/-- Claim C7 (witness): a timed-out request yields the `Timeout`
outcome. -/
theorem fetch_timeout_classified_witness :
    (fetchPage ⟨"s", "c", "a"⟩ (fun _ => ⟨.earlyFailure, 0, .timeout, .earlyFailure, 9⟩)
        0 ⟨⟨[]⟩, 0⟩ 0).result = .timeout :=
  (fetch_timeout_classified ⟨"s", "c", "a"⟩
    (fun _ => ⟨.earlyFailure, 0, .timeout, .earlyFailure, 9⟩) 0 ⟨⟨[]⟩, 0⟩ 0 rfl).1

/-- Claim C8: when any number of callers invoke `get_cookies` while the
cache is empty, the lock serializes their critical sections and only the
first runs `_refresh_cookies` (whatever its outcome, the dict it leaves
behind is non-empty), so exactly one refresh executes. -/
theorem concurrent_first_use_one_refresh (env : Env)
    (inp : RefreshOutcome × Nat) (rest : List (RefreshOutcome × Nat))
    (s : CMState) (h : s.cookies.isEmpty = true) :
    (runCallers env (inp :: rest) s).2 = 1 := by
  unfold runCallers getCookiesCS
  rw [if_pos h]
  simp [runCallers_no_refresh env rest _
    (refresh_cookies_nonempty env inp.1 inp.2 s)]

/-- Claim C8 (witness): three concurrent first-use callers on an empty
cache, the first of which hits a failing refresh, still produce exactly
one refresh execution. -/
theorem concurrent_first_use_one_refresh_witness :
    (runCallers ⟨"s", "c", "a"⟩ [(.earlyFailure, 0), (.earlyFailure, 1), (.success [], 2)]
        ⟨⟨[]⟩, 0⟩).2 = 1 :=
  concurrent_first_use_one_refresh ⟨"s", "c", "a"⟩ (.earlyFailure, 0)
    [(.earlyFailure, 1), (.success [], 2)] ⟨⟨[]⟩, 0⟩ rfl

/-- Claim C9 (counterexample): the claim as stated is false on the code.
A refresh at `t = 100` on a fresh manager (cooldown long elapsed) that
fails after the timestamp update at line 101 — for example
`browser.close()` at line 102 raising — installs the environment
fallback credentials, so it is a failed refresh, yet it does update
`last_refresh`; and a `force_refresh` issued immediately afterwards
(`t = 101`) is suppressed by the cooldown. -/
theorem late_failed_refresh_starts_cooldown :
    (refreshCookies sampleEnv .lateFailure 100 freshCM).cookies
      = fallbackCookies sampleEnv ∧
    (refreshCookies sampleEnv .lateFailure 100 freshCM).lastRefresh
      ≠ freshCM.lastRefresh ∧
    (forceRefresh sampleEnv (.success []) 101
        (refreshCookies sampleEnv .lateFailure 100 freshCM)).2 = false := by
  refine ⟨rfl, by decide, ?_⟩
  unfold forceRefresh refreshCookies freshCM
  rw [if_pos (by decide)]

/-- Claim C9 (amended): only a refresh whose failure occurs before the
timestamp update at line 101 leaves `last_refresh` unchanged, so that a
later `force_refresh` is not suppressed by the cooldown; a refresh whose
failure occurs after line 101 (such as `browser.close()` raising) sets
`last_refresh` to the time of the failed refresh, so the cooldown window
can also start at such a failed refresh, not only at a successful
one. -/
theorem early_failed_refresh_no_cooldown (env : Env) (s : CMState)
    (now1 now2 : Nat) (o2 : RefreshOutcome)
    (h1 : minRefreshInterval ≤ now1 - s.lastRefresh) (h2 : now1 ≤ now2) :
    (forceRefresh env .earlyFailure now1 s).1.lastRefresh = s.lastRefresh ∧
    (forceRefresh env .earlyFailure now1 s).2 = true ∧
    (forceRefresh env o2 now2 (forceRefresh env .earlyFailure now1 s).1).2
      = true ∧
    (refreshCookies env .lateFailure now1 s).lastRefresh = now1 := by
  have hn1 : ¬ (now1 - s.lastRefresh < minRefreshInterval) := by omega
  unfold forceRefresh
  rw [if_neg hn1]
  refine ⟨rfl, rfl, ?_, rfl⟩
  unfold refreshCookies
  rw [if_neg (by simp only []; omega)]

/-- Claim C9 (witness): an early-failing refresh at `t = 100` on a fresh
manager keeps `last_refresh = 0`, and a refresh one second later still
runs. -/
theorem early_failed_refresh_no_cooldown_witness :
    minRefreshInterval ≤ (100 : Nat) - (⟨⟨[]⟩, 0⟩ : CMState).lastRefresh ∧
    (100 : Nat) ≤ 101 ∧
    (forceRefresh ⟨"s", "c", "a"⟩ .earlyFailure 100 ⟨⟨[]⟩, 0⟩).1.lastRefresh
      = 0 ∧
    (forceRefresh ⟨"s", "c", "a"⟩ (.success []) 101
        (forceRefresh ⟨"s", "c", "a"⟩ .earlyFailure 100 ⟨⟨[]⟩, 0⟩).1).2
      = true := by
  have h := early_failed_refresh_no_cooldown ⟨"s", "c", "a"⟩ ⟨⟨[]⟩, 0⟩ 100 101
    (.success []) (by decide) (by decide)
  exact ⟨by decide, by decide, h.1, h.2.2.1⟩

/-- Claim C10: `get_cookies` returns a copy of the stored dict, not the
stored reference: the fresh cell it allocates is a different address, and
a caller mutating the returned dict leaves the manager's cell
unchanged. -/
theorem get_cookies_returns_copy (h : Heap) (mref : Nat) (k v : String)
    (hm : mref < h.cells.length) :
    (getCookiesCopy h mref).2 ≠ mref ∧
    Heap.read (dictSetAt (getCookiesCopy h mref).1 (getCookiesCopy h mref).2
        k v) mref = Heap.read h mref := by
  unfold getCookiesCopy Heap.alloc dictSetAt Heap.write Heap.read
  constructor
  · omega
  · simp only []
    rw [List.getElem?_set_ne (by omega)]
    rw [List.getElem?_append_left hm]

/-- Claim C10 (witness): mutating the copy handed out for a one-cell heap
leaves the manager's stored dict unchanged. -/
theorem get_cookies_returns_copy_witness :
    (0 : Nat) < (Heap.mk [⟨[("theme", "dark")]⟩]).cells.length ∧
    Heap.read
        (dictSetAt (getCookiesCopy (Heap.mk [⟨[("theme", "dark")]⟩]) 0).1
          (getCookiesCopy (Heap.mk [⟨[("theme", "dark")]⟩]) 0).2
          "theme" "light")
        0 = Heap.read (Heap.mk [⟨[("theme", "dark")]⟩]) 0 :=
  ⟨by decide,
   (get_cookies_returns_copy (Heap.mk [⟨[("theme", "dark")]⟩]) 0
     "theme" "light" (by decide)).2⟩

end Biluppgifter
